import Mathlib

/-!
Verification of the augment-to-copilot-metrics core against its natural-language
specification.  The definitions below are a shallow embedding of
src/augment_metrics/analytics_client.py and src/augment_metrics/transformer.py:
Python dicts of JSON data are modelled as association lists over an explicit
JSON value type, the HTTP layer is modelled as an oracle script (the list of
responses the server would return to the successive requests), and Python
exceptions are modelled as explicit error results.
-/

namespace AugmentMetrics

/-- A JSON value, as produced by the HTTP layer's response parsing.
Objects are association lists of string keys; duplicate keys are resolved by
first match, mirroring a dict lookup. -/
inductive JVal where
  | null
  | bool (b : Bool)
  | num (n : Int)
  | str (s : String)
  | arr (xs : List JVal)
  | obj (fields : List (String × JVal))

/-- First-match association-list lookup; the model of a Python dict access. -/
def assocFind {β : Type} (k : String) : List (String × β) → Option β
  | [] => none
  | (k', v) :: rest => if k = k' then some v else assocFind k rest

/-- Model of a Python dict's d.get(k, default). -/
def jGetD (fields : List (String × JVal)) (k : String) (d : JVal) : JVal :=
  (assocFind k fields).getD d

/-- Python truthiness of a JSON value: None, False, 0, the empty string, the
empty list and the empty dict are falsy; everything else is truthy. -/
def jTruthy : JVal → Bool
  | .null => false
  | .bool b => b
  | .num n => !(n == 0)
  | .str s => !(s == "")
  | .arr xs => !xs.isEmpty
  | .obj fs => !fs.isEmpty

/-- Whether the value is a JSON object (a Python dict). -/
def JVal.isObj : JVal → Bool
  | .obj _ => true
  | _ => false

/-- Whether the value is a JSON array (a Python list). -/
def JVal.isArr : JVal → Bool
  | .arr _ => true
  | _ => false

/-- Transport-level errors raised by the HTTP client beneath the analytics
client: generic HTTP failure, authentication failure (401), rate limit (429). -/
inductive HttpErr where
  | httpError
  | authenticationError
  | rateLimitError

/-- The errors AnalyticsClient._paginate can raise, mirroring PaginationError
messages: a wrapped transport error, invalid response type (not a dict),
invalid data type (data present but not a list), invalid pagination type
(pagination present but not a dict). -/
inductive PagError where
  | transport (e : HttpErr)
  | invalidResponseType
  | invalidDataType
  | invalidPaginationType

/-- Outcome of running the pagination loop against an oracle script: the items
yielded so far and, for each GET request issued, the cursor it carried
(none on a request with no cursor parameter).  noResponse marks the model
artifact of the finite script running out while the loop wants another page. -/
inductive PagOut where
  | ok (items : List JVal) (requests : List (Option JVal))
  | err (e : PagError) (items : List JVal) (requests : List (Option JVal))
  | noResponse (items : List JVal) (requests : List (Option JVal))

/-- Prepend one processed page (its yielded items and the cursor its request
carried) to the outcome of the remaining loop iterations. -/
def PagOut.consPage (its : List JVal) (c : Option JVal) : PagOut → PagOut
  | .ok is rs => .ok (its ++ is) (c :: rs)
  | .err e is rs => .err e (its ++ is) (c :: rs)
  | .noResponse is rs => .noResponse (its ++ is) (c :: rs)

/-- AnalyticsClient._paginate: repeatedly GET with the current cursor (omitted
on the first request), check the envelope, yield every item of data in order,
read pagination.next_cursor, and stop when it is falsy.  A transport error is
wrapped in a PagError.transport; a non-dict response, a non-list data field or
a non-dict pagination field abort with the corresponding PagError.  A missing
data field defaults to the empty list and a missing pagination field to the
empty dict, exactly as response.get with a default does in the code. -/
def paginateGo (cursor : Option JVal) : List (Except HttpErr JVal) → PagOut
  | [] => .noResponse [] []
  | r :: rest =>
    match r with
    | .error e => .err (.transport e) [] [cursor]
    | .ok (.obj fields) =>
      match jGetD fields "data" (.arr []) with
      | .arr items =>
        match jGetD fields "pagination" (.obj []) with
        | .obj pfs =>
          let cur := (assocFind "next_cursor" pfs).getD .null
          if jTruthy cur then
            PagOut.consPage items cursor (paginateGo (some cur) rest)
          else
            .ok items [cursor]
        | _ => .err .invalidPaginationType items [cursor]
      | _ => .err .invalidDataType [] [cursor]
    | .ok _ => .err .invalidResponseType [] [cursor]

/-- A well-formed page of the standard paginated envelope:
a data list and an optional pagination.next_cursor string
(none models an absent next_cursor key). -/
structure Page where
  data : List JVal
  next_cursor : Option String

/-- The JSON encoding of a well-formed page. -/
def Page.toJson (p : Page) : JVal :=
  .obj [("data", .arr p.data),
        ("pagination", .obj (match p.next_cursor with
          | none => []
          | some c => [("next_cursor", .str c)]))]

/-- The oracle script in which the server answers the successive requests with
the given pages, in order. -/
def pageScript (ps : List Page) : List (Except HttpErr JVal) :=
  ps.map (fun p => Except.ok p.toJson)

/-! ### Date validation (datetime.strptime with format %Y-%m-%d) -/

/-- Split a character list on the hyphen separator, the way str.split("-")
does: n separators produce n+1 (possibly empty) groups. -/
def splitDashes : List Char → List (List Char)
  | [] => [[]]
  | c :: rest =>
    if c = '-' then [] :: splitDashes rest
    else
      match splitDashes rest with
      | [] => [[c]]
      | g :: gs => (c :: g) :: gs

/-- ASCII decimal digit. -/
def isDigitChar (c : Char) : Bool := '0' ≤ c && c ≤ '9'

/-- Numeric value of a digit string. -/
def digitsToNat (cs : List Char) : Nat :=
  cs.foldl (fun a c => a * 10 + (c.toNat - 48)) 0

/-- The %Y field of strptime: exactly four digits. -/
def parseYearField (cs : List Char) : Option Nat :=
  if cs.length == 4 && cs.all isDigitChar then some (digitsToNat cs) else none

/-- The %m field of strptime: one or two digits with value 1..12
(a leading zero is optional). -/
def parseMonthField (cs : List Char) : Option Nat :=
  if (cs.length == 1 || cs.length == 2) && cs.all isDigitChar then
    let v := digitsToNat cs
    if 1 ≤ v && v ≤ 12 then some v else none
  else none

/-- The %d field of strptime: one or two digits with value 1..31, a leading
zero optional, or a space-padded single digit 1..9. -/
def parseDayField (cs : List Char) : Option Nat :=
  match cs with
  | [' ', c] => if isDigitChar c && c != '0' then some (digitsToNat [c]) else none
  | _ =>
    if (cs.length == 1 || cs.length == 2) && cs.all isDigitChar then
      let v := digitsToNat cs
      if 1 ≤ v && v ≤ 31 then some v else none
    else none

/-- Gregorian leap year, as datetime uses. -/
def isLeapYear (y : Nat) : Bool := y % 4 == 0 && (y % 100 != 0 || y % 400 == 0)

/-- Days in a month, as datetime uses to validate the day. -/
def daysInMonth (y m : Nat) : Nat :=
  if m == 2 then (if isLeapYear y then 29 else 28)
  else if m == 4 || m == 6 || m == 9 || m == 11 then 30
  else 31

/-- Whether datetime.strptime(s, "%Y-%m-%d") succeeds: the whole string is
year-month-day separated by single hyphens, each field parses, and the result
is a representable date (year at least 1, day within the month). -/
def isValidDate (s : String) : Bool :=
  match splitDashes s.toList with
  | [ys, ms, ds] =>
    match parseYearField ys, parseMonthField ms, parseDayField ds with
    | some y, some m, some d => 1 ≤ y && d ≤ daysInMonth y m
    | _, _, _ => false
  | _ => false

/-! ### AnalyticsClient parameter validation and fetch entry points -/

/-- The two ValueError families AnalyticsClient raises before any request:
mutually exclusive or incomplete date parameters, and a date string rejected
by _validate_date. -/
inductive ClientError where
  | invalidParameter
  | invalidDate

/-- Python truthiness of an optional string argument: None and the empty
string are falsy. -/
def strTruthy : Option String → Bool
  | none => false
  | some s => !(s == "")

/-- AnalyticsClient._validate_date: succeed with the string itself when it
parses as %Y-%m-%d, raise ValueError otherwise. -/
def validate_date (s : String) : Except ClientError String :=
  if isValidDate s then .ok s else .error .invalidDate

/-- The parameter validation prefix of AnalyticsClient.fetch_user_activity:
reject date together with a truthy start_date/end_date, reject a half-open
range, then validate whichever dates are given (start before end) and build
the query parameters. -/
def fetch_user_activity_params (d sd ed : Option String) :
    Except ClientError (List (String × String)) :=
  if strTruthy d && (strTruthy sd || strTruthy ed) then .error .invalidParameter
  else if (strTruthy sd && !strTruthy ed) || (strTruthy ed && !strTruthy sd) then
    .error .invalidParameter
  else if strTruthy d then
    match validate_date (d.getD "") with
    | .ok v => .ok [("date", v)]
    | .error e => .error e
  else if strTruthy sd && strTruthy ed then
    match validate_date (sd.getD "") with
    | .error e => .error e
    | .ok v1 =>
      match validate_date (ed.getD "") with
      | .error e => .error e
      | .ok v2 => .ok [("start_date", v1), ("end_date", v2)]
  else .ok []

/-- AnalyticsClient.fetch_user_activity: validate the date parameters, then
run the pagination loop against the oracle script.  A validation error is
raised before any request is issued, so the script is never consulted. -/
def fetch_user_activity (d sd ed : Option String)
    (script : List (Except HttpErr JVal)) : Except ClientError PagOut :=
  match fetch_user_activity_params d sd ed with
  | .error e => .error e
  | .ok _ => .ok (paginateGo none script)

/-- The errors AnalyticsClient.fetch_dau_count can raise: a ValueError from
date validation, and AnalyticsAPIError cases (a wrapped transport error, a
non-dict response, a non-list daily_active_user_counts field).  This type is
distinct from PagError by construction: fetch_dau_count never raises a
PaginationError.  noResponse is the model artifact of an empty oracle. -/
inductive DauError where
  | invalidDate
  | transport (e : HttpErr)
  | invalidResponseType
  | invalidCountsType
  | noResponse

/-- Result of a fetch_dau_count run: the outcome and the query parameters of
each GET request issued. -/
structure DauRun where
  result : Except DauError (List JVal)
  requests : List (List (String × String))

/-- The response handling of fetch_dau_count: wrap a transport error in an
AnalyticsAPIError, require a dict response, and return the value of
daily_active_user_counts (defaulting to the empty list when absent), which
must be a list. -/
def dau_core (r : Except HttpErr JVal) : Except DauError (List JVal) :=
  match r with
  | .error e => .error (.transport e)
  | .ok (.obj fs) =>
    match jGetD fs "daily_active_user_counts" (.arr []) with
    | .arr xs => .ok xs
    | _ => .error .invalidCountsType
  | .ok _ => .error .invalidResponseType

/-- AnalyticsClient.fetch_dau_count: validate both dates (start first), then
issue a single GET with start_date/end_date parameters — no pagination loop
and no cursor parameter — and extract daily_active_user_counts from the one
response. -/
def fetch_dau_count (sd ed : String) (script : List (Except HttpErr JVal)) :
    DauRun :=
  if !(isValidDate sd) then ⟨.error .invalidDate, []⟩
  else if !(isValidDate ed) then ⟨.error .invalidDate, []⟩
  else
    match script with
    | [] => ⟨.error .noResponse, []⟩
    | r :: _ => ⟨dau_core r, [[("start_date", sd), ("end_date", ed)]]⟩

/-! ### MetricsTransformer -/

/-- A string-valued field of a raw record's JSON: the key may be absent, hold
JSON null, or hold a string.  Needed because the code distinguishes presence
(dict.get with a default) from truthiness (the or operator). -/
inductive StrField where
  | absent
  | null
  | str (s : String)

/-- What user.get(k) returns for a string field: None for an absent key or a
null value, otherwise the string. -/
def StrField.toOpt : StrField → Option String
  | .absent => none
  | .null => none
  | .str s => some s

/-- What user.get(k, d) returns for a string field: the default only when the
key is absent; a stored null stays None. -/
def StrField.getDefault : StrField → String → Option String
  | .absent, d => some d
  | .null, _ => none
  | .str s, _ => some s

/-- Python truthiness of a string field: absent, None and the empty string
are falsy. -/
def sfFalsy (f : StrField) : Bool :=
  match f with
  | .str s => s == ""
  | _ => true

/-- Python's x or y on optional strings: the left operand when it is a
non-empty string, otherwise the right operand. -/
def pyOrStr (x y : Option String) : Option String :=
  match x with
  | some s => if s == "" then y else some s
  | none => y

/-- A raw per-user record from the Analytics API as the transformer reads it:
identity fields, active_days (absent defaults to 0) and the metrics dict of
named integer counters (the whole dict may be absent; every counter is
optional and read with default 0). -/
structure RawUserRecord where
  user_email : StrField
  service_account_name : StrField
  active_days : Option Int
  metrics : Option (List (String × Int))

/-- metrics.get(k, 0): the counter's value, defaulting to 0 when missing. -/
def dictGetInt (m : List (String × Int)) (k : String) : Int :=
  (assocFind k m).getD 0

/-- A user record in Copilot format, as built by _transform_user_record.
Nested paths of the produced dict are flattened into field names:
chat_panel_interaction_count is chat_panel.user_initiated_interaction_count,
agent_edit_interaction_count is agent_edit.user_initiated_interaction_count,
agent_edit_loc_added_sum is agent_edit.loc_added_sum, and
code_completions_loc_added_sum is code_completions.loc_added_sum. -/
structure TransformedUserRecord where
  user_email : Option String
  active_days : Int
  code_generation_activity_count : Int
  code_acceptance_activity_count : Int
  loc_added_sum : Int
  chat_panel_interaction_count : Int
  agent_edit_interaction_count : Int
  agent_edit_loc_added_sum : Int
  code_completions_loc_added_sum : Int
deriving DecidableEq

/-- MetricsTransformer._transform_user_record: direct field renames plus the
two aggregate sums over the four agent message counters and the four agent
lines-of-code counters. -/
def transform_user_record (user : RawUserRecord) : TransformedUserRecord :=
  let metrics := user.metrics.getD []
  { user_email := pyOrStr user.user_email.toOpt user.service_account_name.toOpt
    active_days := user.active_days.getD 0
    code_generation_activity_count := dictGetInt metrics "completions_count"
    code_acceptance_activity_count := dictGetInt metrics "completions_accepted"
    loc_added_sum := dictGetInt metrics "total_modified_lines_of_code"
    chat_panel_interaction_count := dictGetInt metrics "chat_messages"
    agent_edit_interaction_count :=
      dictGetInt metrics "remote_agent_messages" +
      dictGetInt metrics "ide_agent_messages" +
      dictGetInt metrics "cli_agent_interactive_messages" +
      dictGetInt metrics "cli_agent_non_interactive_messages"
    agent_edit_loc_added_sum :=
      dictGetInt metrics "remote_agent_lines_of_code" +
      dictGetInt metrics "ide_agent_lines_of_code" +
      dictGetInt metrics "cli_agent_interactive_lines_of_code" +
      dictGetInt metrics "cli_agent_non_interactive_lines_of_code"
    code_completions_loc_added_sum := dictGetInt metrics "completions_lines_of_code" }

/-- MetricsTransformer._is_user_engaged: any of code generation, chat panel or
agent edit interactions is positive. -/
def is_user_engaged (r : TransformedUserRecord) : Bool :=
  decide (0 < r.code_generation_activity_count) ||
  decide (0 < r.chat_panel_interaction_count) ||
  decide (0 < r.agent_edit_interaction_count)

/-- The error raised by transform_user_metrics: TransformationError, which the
code raises only for a date string rejected by strptime. -/
inductive TransformationFailure where
  | invalidDateFormat (s : String)

/-- The report transform_user_metrics emits.  The fixed placeholder sections
copilot_dotcom_chat and copilot_dotcom_pull_requests are represented by their
(always zero) engaged-user counts. -/
structure Report where
  date : String
  total_active_users : Int
  total_engaged_users : Int
  code_completions_engaged : Int
  chat_engaged : Int
  dotcom_chat_engaged : Int
  dotcom_pull_requests_engaged : Int
  breakdown : List TransformedUserRecord

/-- MetricsTransformer.transform_user_metrics: validate the date with
strptime, transform each record, count engaged users overall and per feature,
take the supplied DAU count (or the number of records when absent) as
total_active_users, and clamp it up to total_engaged_users if it is smaller
(the code only logs a warning there, it never fails). -/
def transform_user_metrics (user_activity : List RawUserRecord) (date_str : String)
    (dau_count : Option Int) : Except TransformationFailure Report :=
  if isValidDate date_str then
    let breakdown := user_activity.map transform_user_record
    let total_engaged : Int := breakdown.countP is_user_engaged
    let cc_engaged : Int :=
      breakdown.countP (fun r => decide (0 < r.code_generation_activity_count))
    let chat_eng : Int :=
      breakdown.countP (fun r => decide (0 < r.chat_panel_interaction_count))
    let total_active : Int := dau_count.getD breakdown.length
    .ok { date := date_str
          total_active_users :=
            if total_active < total_engaged then total_engaged else total_active
          total_engaged_users := total_engaged
          code_completions_engaged := cc_engaged
          chat_engaged := chat_eng
          dotcom_chat_engaged := 0
          dotcom_pull_requests_engaged := 0
          breakdown := breakdown }
  else .error (.invalidDateFormat date_str)

/-- The flat CSV row transform_to_csv_row builds, one field per column.
The user field may be Python None (when user_email is falsy and
service_account_name holds null), hence Option String. -/
structure CsvRow where
  user : Option String
  active_days : Int
  completions : Int
  accepted_completions : Int
  chat_messages : Int
  remote_agent_messages : Int
  ide_agent_messages : Int
  cli_interactive_messages : Int
  cli_non_interactive_messages : Int
  total_tool_calls : Int
  total_modified_loc : Int
  completion_loc : Int
  remote_agent_loc : Int
  ide_agent_loc : Int
  cli_agent_loc : Int
  copilot_code_generation : Int
  copilot_code_acceptance : Int
  copilot_chat_interactions : Int
  copilot_agent_interactions : Int
deriving DecidableEq

/-- MetricsTransformer.transform_to_csv_row: raw pass-through counters plus
the same agent interaction aggregate, with the CLI lines of code folded into
one column.  The identity falls back to service_account_name with default ""
for an absent key. -/
def transform_to_csv_row (user : RawUserRecord) : CsvRow :=
  let metrics := user.metrics.getD []
  { user := pyOrStr user.user_email.toOpt (user.service_account_name.getDefault "")
    active_days := user.active_days.getD 0
    completions := dictGetInt metrics "completions_count"
    accepted_completions := dictGetInt metrics "completions_accepted"
    chat_messages := dictGetInt metrics "chat_messages"
    remote_agent_messages := dictGetInt metrics "remote_agent_messages"
    ide_agent_messages := dictGetInt metrics "ide_agent_messages"
    cli_interactive_messages := dictGetInt metrics "cli_agent_interactive_messages"
    cli_non_interactive_messages := dictGetInt metrics "cli_agent_non_interactive_messages"
    total_tool_calls := dictGetInt metrics "total_tool_calls"
    total_modified_loc := dictGetInt metrics "total_modified_lines_of_code"
    completion_loc := dictGetInt metrics "completions_lines_of_code"
    remote_agent_loc := dictGetInt metrics "remote_agent_lines_of_code"
    ide_agent_loc := dictGetInt metrics "ide_agent_lines_of_code"
    cli_agent_loc :=
      dictGetInt metrics "cli_agent_interactive_lines_of_code" +
      dictGetInt metrics "cli_agent_non_interactive_lines_of_code"
    copilot_code_generation := dictGetInt metrics "completions_count"
    copilot_code_acceptance := dictGetInt metrics "completions_accepted"
    copilot_chat_interactions := dictGetInt metrics "chat_messages"
    copilot_agent_interactions :=
      dictGetInt metrics "remote_agent_messages" +
      dictGetInt metrics "ide_agent_messages" +
      dictGetInt metrics "cli_agent_interactive_messages" +
      dictGetInt metrics "cli_agent_non_interactive_messages" }

/-- Whether an Except value is a success. -/
def exceptIsOk {ε α : Type} : Except ε α → Bool
  | .ok _ => true
  | .error _ => false

/-- Whether a pagination run aborted with a PaginationError. -/
def PagOut.isError : PagOut → Bool
  | .err _ _ _ => true
  | _ => false

/-- The raw record of the spec's round-trip scenario: the thirteen counters
with active_days 11. -/
def roundTripInput : RawUserRecord :=
  { user_email := .str "u@example.com"
    service_account_name := .absent
    active_days := some 11
    metrics := some
      [("completions_count", 12), ("completions_accepted", 2),
       ("remote_agent_messages", 100), ("ide_agent_messages", 120),
       ("cli_agent_interactive_messages", 20), ("cli_agent_non_interactive_messages", 4),
       ("remote_agent_lines_of_code", 15000), ("ide_agent_lines_of_code", 12000),
       ("cli_agent_interactive_lines_of_code", 1500),
       ("cli_agent_non_interactive_lines_of_code", 440),
       ("total_modified_lines_of_code", 28942), ("completions_lines_of_code", 2),
       ("chat_messages", 3)] }

/-! ### Helper lemmas -/

/-- First-match lookup is invariant under permutation of an association list
with distinct keys. -/
theorem assocFind_perm {β : Type} (k : String) :
    ∀ {m₁ m₂ : List (String × β)}, m₁.Perm m₂ → (m₁.map Prod.fst).Nodup →
      assocFind k m₁ = assocFind k m₂ := by
  intro m₁ m₂ h
  induction h with
  | nil => intro _; rfl
  | cons a h ih =>
    intro nd
    obtain ⟨k', v⟩ := a
    by_cases hk : k = k'
    · simp [assocFind, hk]
    · simp only [assocFind, if_neg hk]
      exact ih (by simp only [List.map_cons, List.nodup_cons] at nd; exact nd.2)
  | swap a b t =>
    intro nd
    obtain ⟨ka, va⟩ := a
    obtain ⟨kb, vb⟩ := b
    have hne : kb ≠ ka := by
      simp only [List.map_cons, List.nodup_cons, List.mem_cons] at nd
      exact fun hEq => nd.1 (Or.inl hEq)
    have hne' : ¬ ka = kb := fun hEq => hne hEq.symm
    rcases Decidable.em (k = ka) with h1 | h1 <;> rcases Decidable.em (k = kb) with h2 | h2
    · exact absurd (h1.symm.trans h2) (fun hEq => hne hEq.symm)
    · simp [assocFind, h1, h2, hne, hne']
    · simp [assocFind, h1, h2, hne, hne']
    · simp [assocFind, h1, h2, hne, hne']
  | trans h₁ h₂ ih₁ ih₂ =>
    intro nd
    exact (ih₁ nd).trans (ih₂ ((h₁.map Prod.fst).nodup nd))

/-- One loop iteration on a well-formed page with a falsy next_cursor: yield
its items and stop. -/
theorem paginateGo_step_stop (cur : Option JVal) (p : Page)
    (rest : List (Except HttpErr JVal))
    (h : p.next_cursor = none ∨ p.next_cursor = some "") :
    paginateGo cur (Except.ok p.toJson :: rest) = .ok p.data [cur] := by
  rcases h with h | h <;>
    simp [paginateGo, Page.toJson, jGetD, assocFind, h, jTruthy]

/-- One loop iteration on a well-formed page with a non-empty next_cursor:
yield its items and continue with that cursor. -/
theorem paginateGo_step_next (cur : Option JVal) (p : Page)
    (rest : List (Except HttpErr JVal)) (c : String)
    (hc : p.next_cursor = some c) (hcne : c ≠ "") :
    paginateGo cur (Except.ok p.toJson :: rest) =
      PagOut.consPage p.data cur (paginateGo (some (JVal.str c)) rest) := by
  have hcb : (c == "") = false := by simpa using hcne
  simp [paginateGo, Page.toJson, jGetD, assocFind, hc, jTruthy, hcb]

/-- Running the pagination loop from any starting cursor over well-formed
pages whose non-final cursors are non-empty and whose final cursor is absent
or empty yields all items in page order and issues one request per page, the
first with the starting cursor, each later one with the preceding page's
cursor. -/
theorem paginate_pages (ps : List Page) :
    ∀ (cur : Option JVal) (hne : ps ≠ [])
      (hmid : ∀ p ∈ ps.dropLast, ∃ c, p.next_cursor = some c ∧ c ≠ "")
      (hlast : (ps.getLast hne).next_cursor = none ∨
               (ps.getLast hne).next_cursor = some ""),
      paginateGo cur (pageScript ps) =
        .ok ((ps.map Page.data).flatten)
            (cur :: ps.dropLast.map (fun p => some (JVal.str (p.next_cursor.getD "")))) := by
  induction ps with
  | nil => intro _ hne _ _; exact absurd rfl hne
  | cons p rest ih =>
    intro cur hne hmid hlast
    cases rest with
    | nil =>
      replace hlast : p.next_cursor = none ∨ p.next_cursor = some "" := hlast
      simp only [pageScript, List.map_cons, List.map_nil]
      rw [paginateGo_step_stop cur p [] hlast]
      simp
    | cons q rest' =>
      obtain ⟨c, hc, hcne⟩ := hmid p (by simp)
      have hmid' : ∀ x ∈ (q :: rest').dropLast, ∃ c, x.next_cursor = some c ∧ c ≠ "" := by
        intro x hx
        exact hmid x (by simp [hx])
      have hlast' := hlast
      rw [List.getLast_cons (by simp : q :: rest' ≠ [])] at hlast'
      have hrec := ih (some (JVal.str c)) (by simp) hmid' hlast'
      have hdl : (p :: q :: rest').dropLast = p :: (q :: rest').dropLast := rfl
      simp only [pageScript, List.map_cons] at hrec ⊢
      rw [paginateGo_step_next cur p _ c hc hcne, hrec]
      simp [PagOut.consPage, hdl, hc]

/-! ### Claim theorems -/

/-- C7: for the spec's round-trip input record (the thirteen counters with
active_days 11), the transformed record has
agent_edit.user_initiated_interaction_count = 244,
agent_edit.loc_added_sum = 28940 and loc_added_sum = 28942. -/
theorem round_trip_scenario :
    (transform_user_record roundTripInput).agent_edit_interaction_count = 244 ∧
    (transform_user_record roundTripInput).agent_edit_loc_added_sum = 28940 ∧
    (transform_user_record roundTripInput).loc_added_sum = 28942 := by
  refine ⟨?_, ?_, ?_⟩ <;> rfl

/-- C4: transform_user_metrics fails exactly when the date string is rejected
by the strptime %Y-%m-%d parse, whatever the records (including records with
an absent metrics dict or missing counters) and whatever the DAU override:
the run is a success if and only if the date is valid. -/
theorem transform_error_iff_invalid_date :
    ∀ (users : List RawUserRecord) (d : String) (dau : Option Int),
      exceptIsOk (transform_user_metrics users d dau) = isValidDate d := by
  intro users d dau
  cases hv : isValidDate d <;> simp [transform_user_metrics, hv, exceptIsOk]

/-- C3: for every raw record, agent_edit.user_initiated_interaction_count is
the sum of exactly the four agent message counters and agent_edit.loc_added_sum
the sum of exactly the four agent lines-of-code counters; a counter missing
from the metrics dict contributes 0; and the whole transformed record is
unchanged under any reordering of the (distinct-keyed) metrics entries. -/
theorem record_agent_aggregates :
    (∀ u : RawUserRecord,
      (transform_user_record u).agent_edit_interaction_count =
        dictGetInt (u.metrics.getD []) "remote_agent_messages" +
        dictGetInt (u.metrics.getD []) "ide_agent_messages" +
        dictGetInt (u.metrics.getD []) "cli_agent_interactive_messages" +
        dictGetInt (u.metrics.getD []) "cli_agent_non_interactive_messages" ∧
      (transform_user_record u).agent_edit_loc_added_sum =
        dictGetInt (u.metrics.getD []) "remote_agent_lines_of_code" +
        dictGetInt (u.metrics.getD []) "ide_agent_lines_of_code" +
        dictGetInt (u.metrics.getD []) "cli_agent_interactive_lines_of_code" +
        dictGetInt (u.metrics.getD []) "cli_agent_non_interactive_lines_of_code") ∧
    (∀ (m : List (String × Int)) (k : String),
      assocFind k m = none → dictGetInt m k = 0) ∧
    (∀ (u : RawUserRecord) (m₁ m₂ : List (String × Int)),
      (m₁.map Prod.fst).Nodup → m₁.Perm m₂ →
      transform_user_record { u with metrics := some m₁ } =
        transform_user_record { u with metrics := some m₂ }) := by
  refine ⟨fun u => ⟨rfl, rfl⟩, ?_, ?_⟩
  · intro m k h
    simp [dictGetInt, h]
  · intro u m₁ m₂ nd hp
    have hf : ∀ k : String, assocFind k m₁ = assocFind k m₂ :=
      fun k => assocFind_perm k hp nd
    simp only [transform_user_record, Option.getD_some, dictGetInt, hf]

/-- Witness for C3 at concrete inputs: a missing counter reads as 0, and
swapping the two entries of a two-counter metrics dict leaves the transformed
record unchanged. -/
theorem record_agent_aggregates_witness :
    dictGetInt [] "remote_agent_messages" = 0 ∧
    transform_user_record
        { user_email := .str "a@b.c", service_account_name := .absent,
          active_days := some 1,
          metrics := some [("remote_agent_messages", 1), ("ide_agent_messages", 2)] } =
      transform_user_record
        { user_email := .str "a@b.c", service_account_name := .absent,
          active_days := some 1,
          metrics := some [("ide_agent_messages", 2), ("remote_agent_messages", 1)] } := by
  exact ⟨record_agent_aggregates.2.1 [] "remote_agent_messages" rfl,
    record_agent_aggregates.2.2
      { user_email := .str "a@b.c", service_account_name := .absent,
        active_days := some 1, metrics := none }
      [("remote_agent_messages", 1), ("ide_agent_messages", 2)]
      [("ide_agent_messages", 2), ("remote_agent_messages", 1)]
      (by decide) (List.Perm.swap _ _ [])⟩

/-- C9: the flat CSV row duplicates the structured aggregates: its
Copilot Agent Interactions column equals the structured record's
agent_edit.user_initiated_interaction_count, the three agent LOC columns sum
to agent_edit.loc_added_sum, and with an absent metrics dict every one of
those values is 0 in both outputs. -/
theorem csv_matches_structured (u : RawUserRecord) :
    (transform_to_csv_row u).copilot_agent_interactions =
      (transform_user_record u).agent_edit_interaction_count ∧
    (transform_to_csv_row u).remote_agent_loc + (transform_to_csv_row u).ide_agent_loc +
        (transform_to_csv_row u).cli_agent_loc =
      (transform_user_record u).agent_edit_loc_added_sum ∧
    (u.metrics = none →
      (transform_to_csv_row u).copilot_agent_interactions = 0 ∧
      (transform_user_record u).agent_edit_interaction_count = 0 ∧
      (transform_to_csv_row u).remote_agent_loc = 0 ∧
      (transform_to_csv_row u).ide_agent_loc = 0 ∧
      (transform_to_csv_row u).cli_agent_loc = 0 ∧
      (transform_user_record u).agent_edit_loc_added_sum = 0) := by
  refine ⟨rfl, ?_, ?_⟩
  · simp only [transform_to_csv_row, transform_user_record]
    ring
  · intro h
    refine ⟨?_, ?_, ?_, ?_, ?_, ?_⟩ <;>
      simp [transform_to_csv_row, transform_user_record, dictGetInt, assocFind, h]

/-- Witness for C9 at a record with an absent metrics dict: the agent
aggregate is 0 in both the CSV row and the structured record. -/
theorem csv_matches_structured_witness :
    (transform_to_csv_row
        { user_email := .str "a@b.c", service_account_name := .absent,
          active_days := none, metrics := none }).copilot_agent_interactions = 0 ∧
    (transform_user_record
        { user_email := .str "a@b.c", service_account_name := .absent,
          active_days := none, metrics := none }).agent_edit_interaction_count = 0 := by
  have h := csv_matches_structured
    { user_email := .str "a@b.c", service_account_name := .absent,
      active_days := none, metrics := none }
  exact ⟨(h.2.2 rfl).1, (h.2.2 rfl).2.1⟩

/-- C10: when user_email is falsy (absent, None or the empty string), the
structured record's identity comes from service_account_name — the choice is
by truthiness, not key presence — and with both fields absent the CSV row's
identity is the empty string while the structured record's identity is None. -/
theorem identity_truthiness_preference :
    (∀ u : RawUserRecord, sfFalsy u.user_email = true →
      (transform_user_record u).user_email = u.service_account_name.toOpt) ∧
    (∀ u : RawUserRecord, u.user_email = .absent → u.service_account_name = .absent →
      (transform_to_csv_row u).user = some "" ∧
      (transform_user_record u).user_email = none) := by
  constructor
  · intro u h
    cases he : u.user_email with
    | absent => simp [transform_user_record, he, StrField.toOpt, pyOrStr]
    | null => simp [transform_user_record, he, StrField.toOpt, pyOrStr]
    | str s =>
      have hs : (s == "") = true := by rw [he] at h; simpa [sfFalsy] using h
      simp [transform_user_record, he, StrField.toOpt, pyOrStr, hs]
  · intro u h1 h2
    constructor
    · simp [transform_to_csv_row, h1, h2, StrField.toOpt, StrField.getDefault, pyOrStr]
    · simp [transform_user_record, h1, h2, StrField.toOpt, pyOrStr]

/-- Witness for C10: an empty-string user_email next to a service-account
name yields the service-account identity, and a record with neither field
yields "" in the CSV row and None in the structured record. -/
theorem identity_truthiness_preference_witness :
    (transform_user_record
        { user_email := .str "", service_account_name := .str "svc-1",
          active_days := none, metrics := none }).user_email = some "svc-1" ∧
    (transform_to_csv_row
        { user_email := .absent, service_account_name := .absent,
          active_days := none, metrics := none }).user = some "" ∧
    (transform_user_record
        { user_email := .absent, service_account_name := .absent,
          active_days := none, metrics := none }).user_email = none := by
  refine ⟨identity_truthiness_preference.1
      { user_email := .str "", service_account_name := .str "svc-1",
        active_days := none, metrics := none } (by decide), ?_, ?_⟩
  · exact (identity_truthiness_preference.2
      { user_email := .absent, service_account_name := .absent,
        active_days := none, metrics := none } rfl rfl).1
  · exact (identity_truthiness_preference.2
      { user_email := .absent, service_account_name := .absent,
        active_days := none, metrics := none } rfl rfl).2

/-- C2: every Report transform_user_metrics returns satisfies
total_active_users >= total_engaged_users; total_engaged_users is the number
of engaged input records, total_active_users is the supplied override (the
record count when absent) and is clamped up to the engaged count when the
override is smaller; and for a well-formed date the transformation never
fails, whatever the override. -/
theorem transform_active_ge_engaged (users : List RawUserRecord) (d : String)
    (dau : Option Int) (rep : Report)
    (h : transform_user_metrics users d dau = .ok rep) :
    rep.total_engaged_users =
      ((users.map transform_user_record).countP is_user_engaged : Int) ∧
    rep.total_engaged_users ≤ rep.total_active_users ∧
    (dau = none → rep.total_active_users = (users.length : Int)) ∧
    (∀ n : Int, dau = some n →
      ((users.map transform_user_record).countP is_user_engaged : Int) ≤ n →
      rep.total_active_users = n) ∧
    (∀ n : Int, dau = some n →
      n < ((users.map transform_user_record).countP is_user_engaged : Int) →
      rep.total_active_users =
        ((users.map transform_user_record).countP is_user_engaged : Int)) ∧
    (isValidDate d = true → ∀ dau' : Option Int,
      exceptIsOk (transform_user_metrics users d dau') = true) := by
  cases hv : isValidDate d with
  | false => rw [transform_user_metrics, hv] at h; simp at h
  | true =>
    rw [transform_user_metrics, hv] at h
    simp only [if_true, Except.ok.injEq] at h
    subst h
    have hcount : (users.map transform_user_record).countP is_user_engaged ≤
        (users.map transform_user_record).length := List.countP_le_length _
    rw [List.length_map] at hcount
    refine ⟨rfl, ?_, ?_, ?_, ?_, ?_⟩
    · simp only []
      split <;> omega
    · intro hd
      subst hd
      simp only [Option.getD_none, List.length_map]
      split <;> omega
    · intro n hd hn
      subst hd
      simp only [Option.getD_some]
      split <;> omega
    · intro n hd hn
      subst hd
      simp only [Option.getD_some]
      split <;> omega
    · intro _ dau'
      simp [transform_user_metrics, hv, exceptIsOk]

/-- Witness for C2: one engaged record with an override of 0 is clamped up,
giving total_active_users = total_engaged_users = 1. -/
theorem transform_active_ge_engaged_witness :
    ({ date := "2026-01-15", total_active_users := 1, total_engaged_users := 1,
       code_completions_engaged := 0, chat_engaged := 1,
       dotcom_chat_engaged := 0, dotcom_pull_requests_engaged := 0,
       breakdown := [{ user_email := some "a@b.c", active_days := 1,
                       code_generation_activity_count := 0,
                       code_acceptance_activity_count := 0,
                       loc_added_sum := 0, chat_panel_interaction_count := 5,
                       agent_edit_interaction_count := 0, agent_edit_loc_added_sum := 0,
                       code_completions_loc_added_sum := 0 }] } :
      Report).total_engaged_users ≤
    ({ date := "2026-01-15", total_active_users := 1, total_engaged_users := 1,
       code_completions_engaged := 0, chat_engaged := 1,
       dotcom_chat_engaged := 0, dotcom_pull_requests_engaged := 0,
       breakdown := [{ user_email := some "a@b.c", active_days := 1,
                       code_generation_activity_count := 0,
                       code_acceptance_activity_count := 0,
                       loc_added_sum := 0, chat_panel_interaction_count := 5,
                       agent_edit_interaction_count := 0, agent_edit_loc_added_sum := 0,
                       code_completions_loc_added_sum := 0 }] } :
      Report).total_active_users := by
  exact (transform_active_ge_engaged
    [{ user_email := .str "a@b.c", service_account_name := .absent,
       active_days := some 1, metrics := some [("chat_messages", 5)] }]
    "2026-01-15" (some 0)
    { date := "2026-01-15", total_active_users := 1, total_engaged_users := 1,
      code_completions_engaged := 0, chat_engaged := 1,
      dotcom_chat_engaged := 0, dotcom_pull_requests_engaged := 0,
      breakdown := [{ user_email := some "a@b.c", active_days := 1,
                      code_generation_activity_count := 0,
                      code_acceptance_activity_count := 0,
                      loc_added_sum := 0, chat_panel_interaction_count := 5,
                      agent_edit_interaction_count := 0, agent_edit_loc_added_sum := 0,
                      code_completions_loc_added_sum := 0 }] }
    rfl).2.1

/-- C1: over N well-formed pages whose first N-1 cursors are non-empty and
whose last cursor is absent or empty, the pagination loop terminates normally,
yields every page's items in arrival order (a page's items before the next
page's), and issues exactly N GET requests: the first without a cursor, each
later one carrying the preceding response's cursor. -/
theorem pagination_issues_n_requests (ps : List Page) (hne : ps ≠ [])
    (hmid : ∀ p ∈ ps.dropLast, ∃ c, p.next_cursor = some c ∧ c ≠ "")
    (hlast : (ps.getLast hne).next_cursor = none ∨
             (ps.getLast hne).next_cursor = some "") :
    paginateGo none (pageScript ps) =
      .ok ((ps.map Page.data).flatten)
          (none :: ps.dropLast.map (fun p => some (JVal.str (p.next_cursor.getD "")))) ∧
    (none :: ps.dropLast.map
        (fun p => some (JVal.str (p.next_cursor.getD "")))).length = ps.length := by
  refine ⟨paginate_pages ps none hne hmid hlast, ?_⟩
  have hpos : 0 < ps.length := List.length_pos.mpr hne
  simp only [List.length_cons, List.length_map, List.length_dropLast]
  omega

/-- Witness for C1: two pages, the first with cursor "c1", yield their three
items in order over exactly two requests (none, then "c1"). -/
theorem pagination_issues_n_requests_witness :
    paginateGo none (pageScript
        [{ data := [.num 1, .num 2], next_cursor := some "c1" },
         { data := [.num 3], next_cursor := none }]) =
      .ok [.num 1, .num 2, .num 3] [none, some (.str "c1")] := by
  have h := (pagination_issues_n_requests
    [{ data := [.num 1, .num 2], next_cursor := some "c1" },
     { data := [.num 3], next_cursor := none }]
    (by simp)
    (by intro p hp
        simp only [List.dropLast, List.mem_singleton] at hp
        subst hp
        exact ⟨"c1", rfl, by decide⟩)
    (Or.inl rfl)).1
  simpa using h

/-- C6 counterexample: a response that is a dict with no data field at all is
not treated as an error — the loop takes data to be the empty list and
pagination to be the empty dict, and terminates normally after that page. -/
theorem paginate_missing_data_silently_ok :
    paginateGo none [Except.ok (JVal.obj [])] = PagOut.ok [] [none] ∧
    (paginateGo none [Except.ok (JVal.obj [])]).isError = false := by
  exact ⟨rfl, rfl⟩

/-- C6 (amended): during pagination every transport error — HTTP error,
authentication failure, rate-limit failure — is wrapped in and surfaced as a
PaginationError, and a PaginationError is raised whenever a response is not a
dict, or its data field is present but not a list, or its pagination field is
present but not a dict (whether or not a data field is present: the loop
reads data through get("data", []), so an absent data field is the empty
list, and likewise an absent pagination field is the empty dict, which ends
pagination without error).  Every such failure aborts the run at that page
with only the items yielded so far, so no malformed page is silently
skipped. -/
theorem paginate_error_conditions :
    (∀ (cur : Option JVal) (e : HttpErr) (rest : List (Except HttpErr JVal)),
      paginateGo cur (.error e :: rest) = .err (.transport e) [] [cur]) ∧
    (∀ (cur : Option JVal) (v : JVal) (rest : List (Except HttpErr JVal)),
      v.isObj = false →
      paginateGo cur (.ok v :: rest) = .err .invalidResponseType [] [cur]) ∧
    (∀ (cur : Option JVal) (fs : List (String × JVal))
        (rest : List (Except HttpErr JVal)) (v : JVal),
      assocFind "data" fs = some v → v.isArr = false →
      paginateGo cur (.ok (.obj fs) :: rest) = .err .invalidDataType [] [cur]) ∧
    (∀ (cur : Option JVal) (fs : List (String × JVal))
        (rest : List (Except HttpErr JVal)) (items : List JVal) (v : JVal),
      jGetD fs "data" (.arr []) = .arr items → assocFind "pagination" fs = some v →
      v.isObj = false →
      paginateGo cur (.ok (.obj fs) :: rest) = .err .invalidPaginationType items [cur]) ∧
    (∀ (cur : Option JVal) (fs : List (String × JVal))
        (rest : List (Except HttpErr JVal)) (items : List JVal)
        (pfs : List (String × JVal)),
      jGetD fs "data" (.arr []) = .arr items →
      jGetD fs "pagination" (.obj []) = .obj pfs →
      jTruthy ((assocFind "next_cursor" pfs).getD .null) = false →
      paginateGo cur (.ok (.obj fs) :: rest) = .ok items [cur]) ∧
    (∀ fs : List (String × JVal),
      assocFind "data" fs = none → jGetD fs "data" (.arr []) = .arr []) ∧
    (∀ fs : List (String × JVal),
      assocFind "pagination" fs = none → jGetD fs "pagination" (.obj []) = .obj []) := by
  refine ⟨fun cur e rest => rfl, ?_, ?_, ?_, ?_, ?_, ?_⟩
  · intro cur v rest hv
    cases v <;> simp [JVal.isObj] at hv ⊢ <;> rfl
  · intro cur fs rest v hd hv
    cases v <;> simp [JVal.isArr] at hv ⊢ <;>
      simp [paginateGo, jGetD, hd]
  · intro cur fs rest items v hd hp hv
    have hp' : jGetD fs "pagination" (.obj []) = v := by simp [jGetD, hp]
    cases v <;> simp [JVal.isObj] at hv ⊢ <;>
      simp [paginateGo, hd, hp']
  · intro cur fs rest items pfs hd hp hcur
    simp [paginateGo, hd, hp, hcur]
  · intro fs hd
    simp [jGetD, hd]
  · intro fs hp
    simp [jGetD, hp]

/-- Witness for C6's amended theorem: a rate-limit error surfaces as a
wrapped PaginationError; a string-valued data field aborts with the
invalid-data error; a response whose pagination field is a string while its
data field is absent aborts with the invalid-pagination error after yielding
the defaulted empty data list; and a response with a data list but no
pagination field ends pagination normally. -/
theorem paginate_error_conditions_witness :
    paginateGo none [Except.error HttpErr.rateLimitError] =
      .err (.transport .rateLimitError) [] [none] ∧
    paginateGo none [Except.ok (JVal.obj [("data", JVal.str "nope")])] =
      .err .invalidDataType [] [none] ∧
    paginateGo none [Except.ok (JVal.obj [("pagination", JVal.str "x")])] =
      .err .invalidPaginationType [] [none] ∧
    paginateGo none [Except.ok (JVal.obj [("data", JVal.arr [JVal.num 7])])] =
      .ok [JVal.num 7] [none] := by
  exact ⟨paginate_error_conditions.1 none .rateLimitError [],
    paginate_error_conditions.2.2.1 none [("data", JVal.str "nope")] []
      (JVal.str "nope") rfl rfl,
    paginate_error_conditions.2.2.2.1 none [("pagination", JVal.str "x")] []
      [] (JVal.str "x") rfl rfl rfl,
    paginate_error_conditions.2.2.2.2.1 none [("data", JVal.arr [JVal.num 7])] []
      [JVal.num 7] [] rfl rfl rfl⟩

/-- C5: fetch_user_activity raises the mutual-exclusion ValueError whenever a
(truthy) single date is given together with a (truthy) range end, or exactly
one of start_date/end_date is given; and a given date string that strptime
rejects raises the invalid-date ValueError — in every case before any request
is issued, as the result is the same for every oracle script. -/
theorem fetch_user_activity_validation (d sd ed : Option String) :
    (strTruthy d = true → (strTruthy sd = true ∨ strTruthy ed = true) →
      ∀ script, fetch_user_activity d sd ed script = .error .invalidParameter) ∧
    (((strTruthy sd = true ∧ strTruthy ed = false) ∨
      (strTruthy ed = true ∧ strTruthy sd = false)) →
      ∀ script, fetch_user_activity d sd ed script = .error .invalidParameter) ∧
    (strTruthy d = true → strTruthy sd = false → strTruthy ed = false →
      isValidDate (d.getD "") = false →
      ∀ script, fetch_user_activity d sd ed script = .error .invalidDate) ∧
    (strTruthy d = false → strTruthy sd = true → strTruthy ed = true →
      (isValidDate (sd.getD "") = false ∨ isValidDate (ed.getD "") = false) →
      ∀ script, fetch_user_activity d sd ed script = .error .invalidDate) := by
  refine ⟨?_, ?_, ?_, ?_⟩
  · intro hd hr script
    rcases hr with h | h <;>
      simp [fetch_user_activity, fetch_user_activity_params, hd, h]
  · intro hr script
    cases hd : strTruthy d with
    | true =>
      rcases hr with ⟨h1, _⟩ | ⟨h1, _⟩ <;>
        simp [fetch_user_activity, fetch_user_activity_params, hd, h1]
    | false =>
      rcases hr with ⟨h1, h2⟩ | ⟨h1, h2⟩ <;>
        simp [fetch_user_activity, fetch_user_activity_params, hd, h1, h2]
  · intro hd hsd hed hval script
    simp [fetch_user_activity, fetch_user_activity_params, hd, hsd, hed,
      validate_date, hval]
  · intro hd hsd hed hval script
    rcases hval with hval | hval
    · simp [fetch_user_activity, fetch_user_activity_params, hd, hsd, hed,
        validate_date, hval]
    · cases hsv : isValidDate (sd.getD "") <;>
        simp [fetch_user_activity, fetch_user_activity_params, hd, hsd, hed,
          validate_date, hval, hsv]

/-- Witness for C5: a date given together with a start_date is rejected as an
invalid parameter, and a lone malformed date (month 13) is rejected as an
invalid date, both with an empty oracle (no request). -/
theorem fetch_user_activity_validation_witness :
    fetch_user_activity (some "2026-01-15") (some "2026-01-01") none [] =
      .error .invalidParameter ∧
    fetch_user_activity (some "2026-13-45") none none [] =
      .error .invalidDate := by
  exact ⟨(fetch_user_activity_validation (some "2026-01-15") (some "2026-01-01") none).1
      (by decide) (Or.inl (by decide)) [],
    (fetch_user_activity_validation (some "2026-13-45") none none).2.2.1
      (by decide) rfl rfl (by decide) []⟩

/-- C8: with valid dates, fetch_dau_count issues exactly one GET request —
no pagination loop, no cursor parameter, only start_date and end_date — and
returns the list under the response's daily_active_user_counts field; it
fails when the response is not a dict or that field holds a non-list, and a
transport error is wrapped in the API-level DauError (a type distinct from
the pagination errors, so never a PaginationError). -/
theorem fetch_dau_count_single_request (sd ed : String) (r : Except HttpErr JVal)
    (rest : List (Except HttpErr JVal))
    (h1 : isValidDate sd = true) (h2 : isValidDate ed = true) :
    (fetch_dau_count sd ed (r :: rest)).requests =
      [[("start_date", sd), ("end_date", ed)]] ∧
    (∀ q ∈ (fetch_dau_count sd ed (r :: rest)).requests,
      assocFind "cursor" q = none) ∧
    (fetch_dau_count sd ed (r :: rest)).result = dau_core r ∧
    (∀ e, r = .error e → dau_core r = .error (.transport e)) ∧
    (∀ v, r = .ok v → v.isObj = false →
      dau_core r = .error .invalidResponseType) ∧
    (∀ fs xs, r = .ok (.obj fs) →
      assocFind "daily_active_user_counts" fs = some (.arr xs) →
      dau_core r = .ok xs) ∧
    (∀ fs v, r = .ok (.obj fs) →
      assocFind "daily_active_user_counts" fs = some v → v.isArr = false →
      dau_core r = .error .invalidCountsType) := by
  refine ⟨by simp [fetch_dau_count, h1, h2], ?_, by simp [fetch_dau_count, h1, h2],
    ?_, ?_, ?_, ?_⟩
  · intro q hq
    have hreq : (fetch_dau_count sd ed (r :: rest)).requests =
        [[("start_date", sd), ("end_date", ed)]] := by
      simp [fetch_dau_count, h1, h2]
    rw [hreq] at hq
    simp only [List.mem_singleton] at hq
    subst hq
    simp [assocFind]
  · intro e he
    subst he
    rfl
  · intro v hv hobj
    subst hv
    cases v <;> simp [JVal.isObj] at hobj ⊢ <;> rfl
  · intro fs xs hr hf
    subst hr
    simp [dau_core, jGetD, hf]
  · intro fs v hr hf hv
    subst hr
    cases v <;> simp [JVal.isArr] at hv ⊢ <;> simp [dau_core, jGetD, hf]

/-- Witness for C8: a successful run over one response returns the DAU list
from daily_active_user_counts after a single cursor-free request. -/
theorem fetch_dau_count_single_request_witness :
    (fetch_dau_count "2026-01-01" "2026-01-31"
        [Except.ok (JVal.obj
          [("daily_active_user_counts", JVal.arr [JVal.num 42]),
           ("metadata", JVal.obj [])])]).requests =
      [[("start_date", "2026-01-01"), ("end_date", "2026-01-31")]] ∧
    (fetch_dau_count "2026-01-01" "2026-01-31"
        [Except.ok (JVal.obj
          [("daily_active_user_counts", JVal.arr [JVal.num 42]),
           ("metadata", JVal.obj [])])]).result = .ok [JVal.num 42] := by
  have h := fetch_dau_count_single_request "2026-01-01" "2026-01-31"
    (Except.ok (JVal.obj
      [("daily_active_user_counts", JVal.arr [JVal.num 42]),
       ("metadata", JVal.obj [])])) []
    (by decide) (by decide)
  exact ⟨h.1, h.2.2.1.trans (h.2.2.2.2.2.1 _ [JVal.num 42] rfl rfl)⟩

end AugmentMetrics
